import Mathlib

/-
Verification of the result-extraction / normalization pipeline and the
fallback (degradation) chain of `src/utils/backend_connector.py`
(class `BackendConnector`).

Modelling conventions of this shallow embedding:
  * A Python string is modelled as `Text := List Char` (Python strings are
    sequences of code points, so `len`, slicing and iteration translate to
    list length, `take`/`drop` and list recursion).
  * `str.lower()` is modelled character-wise for the character ranges the
    heuristics actually use: ASCII letters plus the accented Spanish capitals.
  * `str.strip()` removes the ASCII whitespace characters Python strips.
  * `sub in s` is substring containment; `s.count(sub)` is Python's
    non-overlapping left-to-right occurrence count (all needles used by the
    code are non-empty).
  * An optional / possibly-`None` argument is `Option Text`; Python's
    falsy test `if not result_text` is `none` or the empty string.
  * Python dicts returned by the connector are modelled as structures
    holding the fields the verified properties are about; keys never read
    by any verified property (`detailed_analysis`, `swot_analysis`,
    `estimated_cost`, `processing_time`, `note`, `crew_result`,
    auxiliary metric keys such as `completion_rate` or `digital_readiness`)
    are omitted, and a key that is absent in some paths is an `Option`.
  * Exceptions of the external engine are modelled by the `EngineOutcome`
    sum; the connector itself is total (it never raises on the modelled
    paths, which is exactly the behaviour under verification).
-/

abbrev Text := List Char

/-- Character-wise model of Python str.lower for the characters used by the
heuristics: ASCII capitals are shifted by 32, the accented Spanish capitals
map to their lowercase forms, everything else is unchanged. -/
def lowerChar (c : Char) : Char :=
  if 65 ≤ c.toNat ∧ c.toNat ≤ 90 then Char.ofNat (c.toNat + 32)
  else if c = 'Á' then 'á'
  else if c = 'É' then 'é'
  else if c = 'Í' then 'í'
  else if c = 'Ó' then 'ó'
  else if c = 'Ú' then 'ú'
  else if c = 'Ñ' then 'ñ'
  else if c = 'Ü' then 'ü'
  else c

/-- Model of Python str.lower on a whole string. -/
def lowerText (t : Text) : Text := t.map lowerChar

/-- The ASCII whitespace characters removed by Python str.strip. -/
def isPySpace (c : Char) : Bool :=
  c = ' ' || c = '\t' || c = '\n' || c = '\r' || c = '\x0b' || c = '\x0c'

/-- Model of Python str.strip: drop whitespace from both ends. -/
def stripText (t : Text) : Text :=
  ((t.dropWhile isPySpace).reverse.dropWhile isPySpace).reverse

/-- Model of Python str.split over the single separator character given
(the code only splits on a newline): note that splitting the empty string
yields one empty field, exactly as in Python. -/
def splitOnChar (sep : Char) : Text → List Text
  | [] => [[]]
  | c :: rest =>
    if c = sep then [] :: splitOnChar sep rest
    else
      match splitOnChar sep rest with
      | [] => [[c]]
      | l :: ls => (c :: l) :: ls

/-- Model of the Python substring test sub in t. -/
def containsSub (sub : Text) : Text → Bool
  | [] => sub.isEmpty
  | c :: rest => sub.isPrefixOf (c :: rest) || containsSub sub rest

/-- Fuel-driven worker for the occurrence count; the fuel is an upper bound
on the number of characters still to be scanned. -/
def countSubAux (sub : Text) : Nat → Text → Nat
  | 0, _ => 0
  | _ + 1, [] => 0
  | fuel + 1, c :: rest =>
    if sub.isPrefixOf (c :: rest) then
      1 + countSubAux sub fuel ((c :: rest).drop sub.length)
    else
      countSubAux sub fuel rest

/-- Model of Python t.count(sub) for a non-empty needle: non-overlapping
occurrences counted left to right. -/
def countSub (sub t : Text) : Nat := countSubAux sub t.length t

/-- Model of Python line.startswith((p1, p2, ...)). -/
def startswithAny (ps : List Text) (t : Text) : Bool :=
  ps.any (fun p => p.isPrefixOf t)

/- ------------------------------------------------------------------
   Fixed vocabularies of the extractors
   (backend_connector.py, _extract_risk_level / _extract_growth_potential /
    _extract_recommendations).
   ------------------------------------------------------------------ -/

def altoT : Text := "Alto".data
def medioT : Text := "Medio".data
def bajoT : Text := "Bajo".data
def medioAltoT : Text := "Medio-Alto".data
def moderadoT : Text := "Moderado".data

/-- threat_indicators of _extract_risk_level. -/
def threatIndicators : List Text :=
  ["amenaza".data, "riesgo".data, "desafío".data,
   "competencia intensa".data, "cambios regulatorios".data]

/-- Local threat_count of _extract_risk_level: how many of the five
indicators occur in the lowered text (presence, not multiplicity). -/
def threatKeywordCount (t : Text) : Nat :=
  (threatIndicators.filter (fun i => containsSub i (lowerText t))).length

/-- Local opportunities of _extract_risk_level: occurrences of
oportunidad in the lowered text. -/
def opportunityOccurrences (t : Text) : Nat :=
  countSub "oportunidad".data (lowerText t)

/-- Local threats of _extract_risk_level: occurrences of amenaza plus
occurrences of riesgo in the lowered text. -/
def threatOccurrences (t : Text) : Nat :=
  countSub "amenaza".data (lowerText t) + countSub "riesgo".data (lowerText t)

/-- BackendConnector._extract_risk_level: the guard clause returns Bajo on
None or empty input, otherwise the two-tier decision over the keyword
counts; the code's Spanish labels Bajo / Medio / Alto are the spec's
Low / Medium / High. -/
def extract_risk_level : Option Text → Text
  | none => bajoT
  | some t =>
    if t = [] then bajoT
    else if 3 ≤ threatKeywordCount t ∨ opportunityOccurrences t < threatOccurrences t then altoT
    else if threatKeywordCount t = 2 ∨ threatOccurrences t = opportunityOccurrences t then medioT
    else bajoT

def highGrowthWords : List Text :=
  ["alto crecimiento".data, "gran potencial".data, "excelente oportunidad".data]

def moderateGrowthWords : List Text :=
  ["crecimiento moderado".data, "potencial medio".data, "oportunidades".data]

def expansionWords : List Text :=
  ["expansión".data, "diversificar".data, "implementar".data, "fortalecer".data]

def challengeWords : List Text :=
  ["desafío".data, "competencia intensa".data, "riesgo".data]

/-- BackendConnector._extract_growth_potential: the guard clause returns
Medio on None or empty input, otherwise an ordered cascade of keyword-set
checks, first match wins, default Medio. -/
def extract_growth_potential : Option Text → Text
  | none => medioT
  | some t =>
    if t = [] then medioT
    else
      if highGrowthWords.any (fun w => containsSub w (lowerText t)) then altoT
      else if moderateGrowthWords.any (fun w => containsSub w (lowerText t)) then medioT
      else if expansionWords.any (fun w => containsSub w (lowerText t)) then medioAltoT
      else if challengeWords.any (fun w => containsSub w (lowerText t)) then moderadoT
      else medioT

/- ------------------------------------------------------------------
   BackendConnector._extract_recommendations
   ------------------------------------------------------------------ -/

/-- The three-item list returned directly for None or empty input. -/
def guardRecommendations : List Text :=
  ["Revisar análisis detallado".data,
   "Implementar estrategias sugeridas".data,
   "Monitorear resultados".data]

/-- The five-item canned list used when every search stage finds nothing. -/
def fallbackRecommendations : List Text :=
  ["Revisar análisis completo de competencia generado por CrewAI".data,
   "Implementar estrategias de personalización identificadas".data,
   "Desarrollar canales de venta en línea según recomendaciones".data,
   "Establecer métricas de seguimiento sugeridas".data,
   "Ejecutar plan de acción de 90 días propuesto".data]

/-- The section header phrase searched for (already lowercase). -/
def headerPhrase : Text := "recomendaciones estratégicas".data

/-- The numbered-list markers 1. to 5. . -/
def numberedMarkers : List Text :=
  ["1.".data, "2.".data, "3.".data, "4.".data, "5.".data]

/-- The marker list used inside the header section: the numbered markers
plus the hyphen and bullet markers, in the code's order. -/
def sectionMarkers : List Text :=
  numberedMarkers ++ ["-".data, "•".data]

/-- The inner cleanup loop of stage 1: strip the first matching marker from
the front of the line and strip whitespace (the loop breaks after the first
matching marker, which is what find? gives). -/
def stripMarker (line : Text) : Text :=
  match sectionMarkers.find? (fun p => p.isPrefixOf line) with
  | some p => stripText (line.drop p.length)
  | none => line

/-- The stage-1 line loop: walk the lines with the in_recommendations_section
flag; a header line (re)enters the section; inside the section a marker line
contributes its cleaned text when longer than 20 characters, and a non-empty
line that does not start with a digit and is longer than 50 characters ends
the collection (the Python break). -/
def stage1Go : List Text → Bool → List Text
  | [], _ => []
  | l :: ls, inSec =>
    let line := stripText l
    if containsSub headerPhrase (lowerText line) then stage1Go ls true
    else if inSec then
      if startswithAny sectionMarkers line then
        let clean := stripMarker line
        if 20 < clean.length then clean :: stage1Go ls true
        else stage1Go ls true
      else
        match line with
        | [] => stage1Go ls true
        | c :: _ =>
          if ¬ c.isDigit ∧ 50 < line.length then []
          else stage1Go ls true
    else stage1Go ls false

/-- Stage 1 of _extract_recommendations: runs only when the whole lowered
text contains the header phrase. -/
def stage1 (t : Text) : List Text :=
  if containsSub headerPhrase (lowerText t) then stage1Go (splitOnChar '\n' t) false
  else []

/-- The action-verb vocabulary of stage 2. -/
def actionKeywords : List Text :=
  ["priorizar".data, "implementar".data, "desarrollar".data,
   "establecer".data, "mantener".data]

/-- Stage 2 of _extract_recommendations: keep each stripped line containing
an action verb whose length is strictly between 30 and 200. -/
def stage2 (t : Text) : List Text :=
  (splitOnChar '\n' t).filterMap (fun l =>
    let line := stripText l
    if actionKeywords.any (fun k => containsSub k (lowerText line)) then
      if 30 < line.length ∧ line.length < 200 then some line else none
    else none)

/-- Stage 3 of _extract_recommendations: keep each stripped line starting
with a numbered marker and longer than 30 characters, with its two-character
marker removed and the remainder stripped. -/
def stage3 (t : Text) : List Text :=
  (splitOnChar '\n' t).filterMap (fun l =>
    let line := stripText l
    if startswithAny numberedMarkers line ∧ 30 < line.length then
      some (stripText (line.drop 2))
    else none)

/-- The staged search of _extract_recommendations: each stage is tried only
when the previous ones produced nothing, and when all three produce nothing
the canned fallback list is used. -/
def stagedRecommendations (t : Text) : List Text :=
  let r1 := stage1 t
  let r2 := if r1 = [] then stage2 t else r1
  let r3 := if r2 = [] then stage3 t else r2
  if r3 = [] then fallbackRecommendations else r3

/-- BackendConnector._extract_recommendations: guard clause for None /
empty input, then the staged search capped at the first five entries. -/
def extract_recommendations : Option Text → List Text
  | none => guardRecommendations
  | some t =>
    if t = [] then guardRecommendations
    else (stagedRecommendations t).take 5

/- ------------------------------------------------------------------
   Canonical result records and the degradation chain
   (BackendConnector.analyze_company and its helpers).
   ------------------------------------------------------------------ -/

/-- The metrics block of an analysis: overall_score is present on every
path; the remaining keys are present only on some paths and are Options. -/
structure Metrics where
  overall_score : Nat
  confidence : Option Text
  data_quality : Option Text
  growth_potential : Option Text
  risk_level : Option Text
deriving Repr, DecidableEq

/-- The analysis payload of a result record: the fields every verified
property reads; next_steps is absent in the fallback record. -/
structure Analysis where
  executive_summary : Text
  recommendations : List Text
  next_steps : Option (List Text)
  metrics : Metrics
deriving Repr, DecidableEq

/-- The dictionary analyze_company returns: success is always present;
source, simulation_mode, analysis, error and note are present only on some
paths. -/
structure ResultRecord where
  success : Bool
  source : Option Text
  simulation_mode : Option Bool
  analysis : Option Analysis
  error : Option Text
  note : Option Text
deriving Repr, DecidableEq

/-- The request dictionary fields the chain reads through .get with a
default: a missing key is none. -/
structure CompanyData where
  name : Option Text
  industry : Option Text
  location : Option Text
  analysis_type : Option Text
deriving Repr, DecidableEq

/-- The outcome of invoking the external engine (analyzer.execute_analysis):
it raises, returns a falsy (empty) result, or returns a result whose
selected text form is the given string (the .raw / .output / str selection
at the top of _process_crewai_result). -/
inductive EngineOutcome where
  | raises (msg : Text)
  | empty
  | ok (resultado_str : Text)
deriving Repr, DecidableEq

/-- BackendConnector._process_crewai_result on the selected result string:
the executive summary is the first 500 characters plus an ellipsis when the
text is longer than 500, otherwise the text itself; overall_score is the
constant 85; confidence is Alta when the length exceeds 500, else Media;
risk, growth and recommendations are delegated to the extractors. -/
def process_crewai_result (resultado_str : Text) : Analysis :=
  { executive_summary :=
      if 500 < resultado_str.length then resultado_str.take 500 ++ "...".data
      else resultado_str
  , recommendations := extract_recommendations (some resultado_str)
  , next_steps :=
      some ["Revisar análisis detallado generado por CrewAI".data,
            "Implementar recomendaciones priorizadas".data,
            "Monitorear resultados y ajustar estrategia".data]
  , metrics :=
      { overall_score := 85
      , confidence := some (if 500 < resultado_str.length then "Alta".data else "Media".data)
      , data_quality := some "Buena".data
      , growth_potential := some (extract_growth_potential (some resultado_str))
      , risk_level := some (extract_risk_level (some resultado_str)) } }

/-- BackendConnector._create_fallback_result: a success record tagged
Sistema de Fallback with a fixed three-item recommendation list and an
overall score of 70. -/
def create_fallback_result (cd : CompanyData) (error_msg : Text) : ResultRecord :=
  { success := true
  , source := some "Sistema de Fallback".data
  , simulation_mode := some true
  , analysis := some
      { executive_summary :=
          "Análisis de fallback para ".data ++ cd.name.getD "empresa".data
      , recommendations :=
          ["Verificar configuración del sistema CrewAI".data,
           "Revisar conectividad y dependencias".data,
           "Intentar análisis nuevamente".data]
      , next_steps := none
      , metrics :=
          { overall_score := 70
          , confidence := some "Media".data
          , data_quality := none
          , growth_potential := none
          , risk_level := none } }
  , error := none
  , note := some ("Error en CrewAI: ".data ++ error_msg) }

/-- A newline followed by the sixteen spaces of indentation every line of
the simulation template carries. -/
def nlInd : Text := "\n                ".data

/-- The triple-quoted executive-summary template of
_create_intelligent_simulation with the request fields substituted. -/
def simExecutiveSummary (name industry location analysisType : Text) : Text :=
  nlInd ++ "ANÁLISIS EMPRESARIAL AVANZADO - ".data ++ name
  ++ nlInd ++ List.replicate 47 '='
  ++ nlInd
  ++ nlInd ++ "**Empresa**: ".data ++ name
  ++ nlInd ++ "**Sector**: ".data ++ industry
  ++ nlInd ++ "**Ubicación**: ".data ++ location
  ++ nlInd ++ "**Tipo de Análisis**: ".data ++ analysisType
  ++ nlInd
  ++ nlInd ++ "RESUMEN EJECUTIVO:".data
  ++ nlInd ++ "El análisis de ".data ++ name ++ " en el sector ".data ++ industry
        ++ " revela un panorama empresarial con potencial de crecimiento significativo. ".data
  ++ nlInd ++ "La empresa presenta características sólidas para el desarrollo en su mercado objetivo, con oportunidades claras de optimización ".data
  ++ nlInd ++ "y expansión estratégica.".data
  ++ nlInd
  ++ nlInd ++ "CONTEXTO DE MERCADO:".data
  ++ nlInd ++ "El sector ".data ++ industry
        ++ " muestra tendencias positivas con oportunidades de digitalización y mejora operacional. ".data
  ++ nlInd ++ "La ubicación en ".data ++ location
        ++ " proporciona ventajas competitivas específicas para el tipo de negocio analizado.".data
  ++ nlInd
  ++ nlInd ++ "METODOLOGÍA:".data
  ++ nlInd ++ "Este análisis ha sido generado utilizando la metodología AgentFlow Manager FASE 3, aplicando patrones de análisis ".data
  ++ nlInd ++ "empresarial reconocidos y adaptados específicamente para el contexto de ".data ++ name ++ ".".data
  ++ nlInd

/-- The provenance tag of the synthetic-simulation stage. -/
def simulationSource : Text := "AgentFlow Manager FASE 3 (Simulación Inteligente)".data

/-- BackendConnector._create_intelligent_simulation: the synthetic stage,
a pure function of the request fields (with their .get defaults) that always
returns a success record tagged with the simulation provenance, a fixed
eight-item recommendation list and a fixed metrics block. -/
def create_intelligent_simulation (cd : CompanyData) : ResultRecord :=
  let company_name := cd.name.getD "Empresa".data
  let industry := cd.industry.getD "General".data
  let location := cd.location.getD "Ubicación".data
  let analysis_type := cd.analysis_type.getD "Básico".data
  { success := true
  , source := some simulationSource
  , simulation_mode := some true
  , analysis := some
      { executive_summary := simExecutiveSummary company_name industry location analysis_type
      , recommendations :=
          ["Implementar estrategia de digitalización progresiva adaptada al sector ".data ++ industry,
           "Optimizar procesos operacionales core de ".data ++ company_name ++ " para mejorar eficiencia".data,
           "Desarrollar plan de expansión regional desde base en ".data ++ location,
           "Establecer sistema de métricas KPI avanzado para monitoreo continuo".data,
           "Invertir en capacitación del equipo en nuevas tecnologías del sector".data,
           "Explorar alianzas estratégicas con empresas complementarias en ".data ++ industry,
           "Implementar sistema CRM avanzado para optimización de ventas".data,
           "Desarrollar propuesta de valor diferenciada para mercado objetivo".data]
      , next_steps :=
          some ["Priorizar recomendaciones según impacto y recursos disponibles".data,
                "Desarrollar plan de implementación detallado por fases".data,
                "Establecer sistema de seguimiento y métricas de progreso".data,
                "Evaluar necesidades de inversión para cada iniciativa".data,
                "Configurar sistema CrewAI real para análisis más profundos".data]
      , metrics :=
          { overall_score := 82
          , confidence := none
          , data_quality := none
          , growth_potential := some "Alto".data
          , risk_level := some "Medio-Bajo".data } }
  , error := none
  , note := some "Análisis generado por simulación inteligente. Para análisis más profundos, configure sistema CrewAI real.".data }

/-- The error message of the not-ready branch at the top of
analyze_company. -/
def notReadyError : Text := "Sistema no está listo. Verifica configuración.".data

/-- BackendConnector.analyze_company, the degradation chain: the not-ready
guard (components_loaded, which the constructor in fact always sets to
true) returns an error record; with the real engine available, an engine
exception falls back to the intelligent simulation, a falsy engine result
falls back to _create_fallback_result, and a usable result is normalized by
_process_crewai_result under the CrewAI Real System tag; without the real
engine the chain goes directly to the intelligent simulation. -/
def analyze_company (ready crewai_real : Bool) (engine : EngineOutcome)
    (cd : CompanyData) : ResultRecord :=
  if ¬ ready then
    { success := false, source := none, simulation_mode := none,
      analysis := none, error := some notReadyError, note := none }
  else if crewai_real then
    match engine with
    | .raises _ => create_intelligent_simulation cd
    | .empty => create_fallback_result cd "Resultado vacío de CrewAI".data
    | .ok s =>
      { success := true
      , source := some "CrewAI Real System".data
      , simulation_mode := some false
      , analysis := some (process_crewai_result s)
      , error := none
      , note := none }
  else create_intelligent_simulation cd

/- ------------------------------------------------------------------
   Helper lemmas
   ------------------------------------------------------------------ -/

/-- Substituting the canned fallback list for an empty list always yields a
non-empty list. -/
theorem fallback_substitution_ne_nil (x : List Text) :
    (if x = [] then fallbackRecommendations else x) ≠ [] := by
  split
  · simp [fallbackRecommendations]
  · assumption

/-- The staged search never produces the empty list: when every stage comes
back empty the canned fallback list is substituted. -/
theorem stagedRecommendations_ne_nil (t : Text) : stagedRecommendations t ≠ [] := by
  simp only [stagedRecommendations]
  exact fallback_substitution_ne_nil _

/-- Taking the first five entries of a non-empty list yields between one and
five entries. -/
theorem take_five_of_ne_nil (l : List Text) (hl : l ≠ []) :
    1 ≤ (l.take 5).length ∧ (l.take 5).length ≤ 5 := by
  have h0 : 0 < l.length := List.length_pos.mpr hl
  refine ⟨?_, ?_⟩ <;> rw [List.length_take]
  · exact Nat.le_min.mpr ⟨by norm_num, h0⟩
  · exact Nat.min_le_left 5 l.length

/-- The recommendations extractor returns between one and five entries on
every input, including None and the empty string. -/
theorem extract_recommendations_bounds (o : Option Text) :
    1 ≤ (extract_recommendations o).length ∧ (extract_recommendations o).length ≤ 5 := by
  match o with
  | none => refine ⟨?_, ?_⟩ <;> simp [extract_recommendations, guardRecommendations]
  | some t =>
    by_cases h : t = []
    · refine ⟨?_, ?_⟩ <;> simp [extract_recommendations, h, guardRecommendations]
    · have he : extract_recommendations (some t) = (stagedRecommendations t).take 5 := by
        simp [extract_recommendations, h]
      rw [he]
      exact take_five_of_ne_nil _ (stagedRecommendations_ne_nil t)

/-- The risk extractor only ever returns one of the three Spanish labels
Bajo, Medio, Alto. -/
theorem risk_level_in_set (o : Option Text) :
    extract_risk_level o ∈ [bajoT, medioT, altoT] := by
  rcases o with _ | t
  · simp [extract_risk_level]
  · simp only [extract_risk_level]
    split
    · simp
    · split
      · simp
      · split <;> simp

/-- The growth extractor only ever returns one of the four Spanish labels
Medio, Alto, Medio-Alto, Moderado (note that Bajo is unreachable and that
Moderado is a fifth label outside the documented enumeration). -/
theorem growth_potential_in_set (o : Option Text) :
    extract_growth_potential o ∈ [medioT, altoT, medioAltoT, moderadoT] := by
  rcases o with _ | t
  · simp [extract_growth_potential]
  · simp only [extract_growth_potential]
    split
    · simp
    · split
      · simp
      · split
        · simp
        · split
          · simp
          · split <;> simp

/- ------------------------------------------------------------------
   Claim theorems
   ------------------------------------------------------------------ -/

/-- C1: for every analysis request, when the primary engine invocation
raises, analyze_company does not propagate the exception: it returns
exactly the record of the synthetic-simulation stage, whose success field
is true and whose source tag is the simulation provenance. -/
theorem engine_exception_recovered_by_simulation (cd : CompanyData) (msg : Text) :
    analyze_company true true (EngineOutcome.raises msg) cd
      = create_intelligent_simulation cd ∧
    (analyze_company true true (EngineOutcome.raises msg) cd).success = true ∧
    (analyze_company true true (EngineOutcome.raises msg) cd).source
      = some simulationSource :=
  ⟨rfl, rfl, rfl⟩

/-- C2: the risk extractor follows the documented decision rule on every
non-empty text (Alto when at least three of the five threat keywords occur
or threat occurrences exceed opportunity occurrences, Medio when exactly
two threat keywords occur or threat occurrences equal opportunity
occurrences, Bajo otherwise) and returns Bajo on None and on the empty
string; Bajo, Medio, Alto are the spec labels Low, Medium, High. -/
theorem risk_level_decision_rule :
    (∀ t : Text, t ≠ [] →
      extract_risk_level (some t) =
        if 3 ≤ threatKeywordCount t ∨ opportunityOccurrences t < threatOccurrences t then altoT
        else if threatKeywordCount t = 2 ∨ threatOccurrences t = opportunityOccurrences t then medioT
        else bajoT) ∧
    extract_risk_level none = bajoT ∧
    extract_risk_level (some []) = bajoT := by
  refine ⟨fun t ht => ?_, rfl, rfl⟩
  simp [extract_risk_level, ht]

/-- C2 witness: the decision rule evaluated at the concrete text amenaza. -/
theorem risk_level_decision_rule_witness :
    extract_risk_level (some ("amenaza".data)) =
      (if 3 ≤ threatKeywordCount ("amenaza".data) ∨
          opportunityOccurrences ("amenaza".data) < threatOccurrences ("amenaza".data) then altoT
       else if threatKeywordCount ("amenaza".data) = 2 ∨
          threatOccurrences ("amenaza".data) = opportunityOccurrences ("amenaza".data) then medioT
       else bajoT) :=
  risk_level_decision_rule.1 ("amenaza".data) (by decide)

/-- C3: the recommendations extractor is total (a Lean function, it cannot
raise) and returns between one and five entries on every input, including
None and the empty string. -/
theorem recommendations_extractor_one_to_five (o : Option Text) :
    1 ≤ (extract_recommendations o).length ∧ (extract_recommendations o).length ≤ 5 :=
  extract_recommendations_bounds o

/-- A request dictionary with none of the optional keys present. -/
def emptyRequest : CompanyData := ⟨none, none, none, none⟩

/-- C4 counterexample: the record produced by the synthetic-simulation
stage of the chain carries an eight-entry recommendations list, exceeding
the claimed cap of five. -/
theorem chain_recommendations_cap_counterexample :
    (analyze_company true true (EngineOutcome.raises []) emptyRequest).analysis.map
      (fun a => a.recommendations.length) = some 8 ∧ ¬ (8 ≤ 5) :=
  ⟨rfl, by decide⟩

/-- C4 amended: every record produced by the chain has a non-empty
recommendations list; the real-engine record respects the cap of five and
the fallback record has exactly three entries, but the synthetic-simulation
record has exactly eight entries (the cap is applied only inside the
extractor, which the simulation path does not use). -/
theorem chain_recommendations_invariant_amended :
    (∀ s : Text,
      1 ≤ (process_crewai_result s).recommendations.length ∧
      (process_crewai_result s).recommendations.length ≤ 5) ∧
    (∀ (cd : CompanyData) (msg : Text),
      (create_fallback_result cd msg).analysis.map
        (fun a => a.recommendations.length) = some 3) ∧
    (∀ cd : CompanyData,
      (create_intelligent_simulation cd).analysis.map
        (fun a => a.recommendations.length) = some 8) := by
  refine ⟨fun s => ?_, fun cd msg => rfl, fun cd => rfl⟩
  exact extract_recommendations_bounds (some s)

/-- C5 counterexample: on the empty selected text the computed executive
summary is the empty string, not a fixed canned paragraph. -/
theorem executive_summary_empty_counterexample :
    (process_crewai_result []).executive_summary = [] ∧
    ((process_crewai_result []).executive_summary).length = 0 :=
  ⟨rfl, rfl⟩

/-- C5 amended: the executive summary is at most 503 characters long; when
the selected text has at most 500 characters the summary equals the text
exactly (in particular the empty text yields the empty summary, there is no
canned paragraph on this path); when the text is longer than 500 the
summary is the first 500 characters followed by the ellipsis marker. -/
theorem executive_summary_truncation_amended (s : Text) :
    (process_crewai_result s).executive_summary.length ≤ 503 ∧
    (s.length ≤ 500 → (process_crewai_result s).executive_summary = s) ∧
    (500 < s.length →
      (process_crewai_result s).executive_summary = s.take 500 ++ "...".data) := by
  have hdots : ("...".data : Text).length = 3 := rfl
  by_cases h : 500 < s.length
  · have heq : (process_crewai_result s).executive_summary = s.take 500 ++ "...".data := by
      simp [process_crewai_result, h]
    refine ⟨?_, fun hle => absurd h (by omega), fun _ => heq⟩
    rw [heq, List.length_append, List.length_take, hdots]
    omega
  · have heq : (process_crewai_result s).executive_summary = s := by
      simp [process_crewai_result, h]
    refine ⟨?_, fun _ => heq, fun hgt => absurd hgt h⟩
    rw [heq]
    omega

/-- C5 witness: the truncation law evaluated at the concrete short text
hola, whose summary is the text itself. -/
theorem executive_summary_truncation_amended_witness :
    (process_crewai_result ("hola".data)).executive_summary = "hola".data :=
  (executive_summary_truncation_amended ("hola".data)).2.1 (by decide)

/-- C6 counterexample: the growth extractor returns Moderado on the text
desafío, a value outside the enumerated set Bajo, Medio, Medio-Alto,
Alto. -/
theorem growth_potential_enumeration_counterexample :
    extract_growth_potential (some ("desafío".data)) = moderadoT ∧
    moderadoT ∉ [bajoT, medioT, medioAltoT, altoT] := by
  refine ⟨by decide, by decide⟩

/-- C6 amended: both extractors are total and never return an out-of-set
value for their actual value sets: the risk extractor always returns one of
Bajo, Medio, Alto, and the growth extractor always returns one of Medio,
Alto, Medio-Alto, Moderado (Moderado replaces the documented Bajo as the
fourth value, and is the label of the challenge tier). -/
theorem extractor_value_sets_amended (o : Option Text) :
    extract_risk_level o ∈ [bajoT, medioT, altoT] ∧
    extract_growth_potential o ∈ [medioT, altoT, medioAltoT, moderadoT] :=
  ⟨risk_level_in_set o, growth_potential_in_set o⟩

/-- C7 counterexample: a request with no company identifying name is not
answered with an error stub: the chain returns the synthetic-simulation
record with success true. -/
theorem missing_name_counterexample :
    (analyze_company true false EngineOutcome.empty emptyRequest).success = true ∧
    (analyze_company true false EngineOutcome.empty emptyRequest).source
      = some simulationSource :=
  ⟨rfl, rfl⟩

/-- C7 amended: a request missing the company identifying name is never
rejected: the chain substitutes the default name Empresa and (here on the
engine-unavailable path) returns the simulation record with success true;
the modelled success false record arises only from the not-ready guard, and
it is returned, never raised. -/
theorem missing_name_defaults_amended (cd : CompanyData) (e : EngineOutcome)
    (b : Bool) (h : cd.name = none) :
    analyze_company true false e cd
      = create_intelligent_simulation { cd with name := some ("Empresa".data) } ∧
    (analyze_company true false e cd).success = true ∧
    (analyze_company true false e cd).source = some simulationSource ∧
    (analyze_company false b e cd).success = false := by
  refine ⟨?_, rfl, rfl, rfl⟩
  show create_intelligent_simulation cd
    = create_intelligent_simulation { cd with name := some ("Empresa".data) }
  simp [create_intelligent_simulation, h]

/-- C7 witness: the amended behaviour evaluated at the concrete request
with every key absent. -/
theorem missing_name_defaults_amended_witness :
    (analyze_company true false EngineOutcome.empty emptyRequest).success = true ∧
    (analyze_company false true EngineOutcome.empty emptyRequest).success = false :=
  ⟨(missing_name_defaults_amended emptyRequest EngineOutcome.empty true rfl).2.1,
   (missing_name_defaults_amended emptyRequest EngineOutcome.empty true rfl).2.2.2⟩

/-- C8 counterexample: the non-empty text hola contains zero occurrences of
the threat vocabulary and zero occurrences of the opportunity vocabulary,
yet the risk extractor returns Medio, not Bajo (zero threats equal zero
opportunities, which lands in the Medio tier). -/
theorem zero_vocabulary_risk_counterexample :
    threatKeywordCount ("hola".data) = 0 ∧
    threatOccurrences ("hola".data) = 0 ∧
    opportunityOccurrences ("hola".data) = 0 ∧
    ("hola".data : Text) ≠ [] ∧
    extract_risk_level (some ("hola".data)) = medioT ∧
    medioT ≠ bajoT := by decide

/-- C8 amended: every non-empty text with zero occurrences of the threat
vocabulary and zero occurrences of the opportunity vocabulary is rated
Medio (the equal-counts tier); Bajo is returned for such content only when
the input is None or empty. -/
theorem zero_vocabulary_risk_amended (t : Text) (h : t ≠ [])
    (h1 : threatKeywordCount t = 0) (h2 : threatOccurrences t = 0)
    (h3 : opportunityOccurrences t = 0) :
    extract_risk_level (some t) = medioT := by
  simp [extract_risk_level, h, h1, h2, h3]

/-- C8 witness: the amended rating evaluated at the concrete text hola. -/
theorem zero_vocabulary_risk_amended_witness :
    extract_risk_level (some ("hola".data)) = medioT :=
  zero_vocabulary_risk_amended ("hola".data) (by decide) (by decide) (by decide) (by decide)

/-- The literal scenario input of the spec for the recommendations
extractor. -/
def c9Input : Text := "Recomendaciones Estratégicas:\n1. Do X\n2. Do Y".data

/-- C9 counterexample: on the literal scenario block the extractor does not
return the two-element list Do X, Do Y. -/
theorem recommendations_scenario_counterexample :
    extract_recommendations (some c9Input) ≠ ["Do X".data, "Do Y".data] := by decide

/-- C9 amended: on the literal scenario block the extractor returns the
fixed five-item canned fallback list: stage 1 strips the markers but then
discards Do X and Do Y because their stripped length does not exceed 20
characters, and the later stages find nothing either. -/
theorem recommendations_scenario_amended :
    extract_recommendations (some c9Input) = fallbackRecommendations ∧
    stage1 c9Input = [] ∧
    stripMarker (stripText ("1. Do X".data)) = "Do X".data ∧
    (stripMarker (stripText ("1. Do X".data))).length ≤ 20 := by decide

/-- C10 counterexample: overall_score is 85 both on the empty output and on
an output longer than 500 characters, so it is not a threshold rule with a
lower constant on the short side. -/
theorem overall_score_threshold_counterexample :
    (process_crewai_result []).metrics.overall_score = 85 ∧
    (process_crewai_result (List.replicate 501 'a')).metrics.overall_score = 85 :=
  ⟨rfl, rfl⟩

/-- C10 amended: in the normalization of real-engine output, overall_score
is the fixed constant 85 for every output text; it is the confidence metric
that follows the length threshold (Alta above 500 characters, Media
otherwise). -/
theorem overall_score_constant_amended (s : Text) :
    (process_crewai_result s).metrics.overall_score = 85 ∧
    (process_crewai_result s).metrics.confidence =
      some (if 500 < s.length then "Alta".data else "Media".data) :=
  ⟨rfl, rfl⟩
